import Mathlib

/-!
Verification of the matchmaking engine in `src/utils/match_helper.py` and
`src/routes/matchmaking.py`.

The MongoDB collections are embedded as Lean lists of records, in document
order; `find_one` is "first list element satisfying the predicate",
`update_one` / `delete_one` act on the first matching element, `delete_many`
on all of them, and `update_one` with `upsert=True` replaces the first
matching element or appends.  Timestamps are integers counting minutes
(`datetime.utcnow()` becomes an explicit `now` parameter).  Match
identifiers (`str(ObjectId())` in the source) become a fresh-counter `Nat`.
-/

/-- A document of the `queue` collection, as built by `add_to_queue`. -/
structure QueueEntry where
  player_id : String
  score : Int
  joined_at : Int
  status : String
deriving Repr, DecidableEq

/-- A document of the match collection, as built by `create_match` and
mutated by the `cancel_match` route (`cancelled_at` is absent until a
cancellation writes it). -/
structure MatchRecord where
  id : Nat
  player1_id : String
  player2_id : String
  created_at : Int
  status : String
  cancelled_at : Option Int
deriving Repr, DecidableEq

/-- The durable state: the two collections plus the
fresh-identifier counter standing for `ObjectId()` generation. -/
structure EngineState where
  queue : List QueueEntry
  matches_collection : List MatchRecord
  next_id : Nat
deriving Repr, DecidableEq

/-- Constant `MAX_SCORE_DIFFERENCE = 100` from `match_helper.py`. -/
def MAX_SCORE_DIFFERENCE : Int := 100

/-- Constant `EXPANDED_SCORE_DIFFERENCE = 200` from `match_helper.py`. -/
def EXPANDED_SCORE_DIFFERENCE : Int := 200

/-- Constant `QUEUE_TIMEOUT_MINUTES = 5` from `match_helper.py`. -/
def QUEUE_TIMEOUT_MINUTES : Int := 5

/-- Mongo `update_one({"player_id": pid}, {"$set": e}, upsert=True)` where
`e` sets every field: replace the first document keyed by `pid`, or insert
`e` when none exists. -/
def upsert_by_player (pid : String) (e : QueueEntry) : List QueueEntry → List QueueEntry
  | [] => [e]
  | x :: xs => if x.player_id == pid then e :: xs else x :: upsert_by_player pid e xs

/-- `MatchmakingQueue.add_to_queue`: upsert a fresh waiting entry keyed by
`player_id` (the happy path; the source returns `False` only on a store
exception, which the embedding does not model). -/
def add_to_queue (pid : String) (score : Int) (now : Int)
    (q : List QueueEntry) : List QueueEntry :=
  upsert_by_player pid { player_id := pid, score := score, joined_at := now, status := "waiting" } q

/-- `MatchmakingQueue.remove_from_queue`: Mongo `delete_one({"player_id": pid})`
deletes the first matching document; the Bool is `deleted_count > 0`. -/
def remove_from_queue (pid : String) : List QueueEntry → Bool × List QueueEntry
  | [] => (false, [])
  | x :: xs =>
      if x.player_id == pid then (true, xs)
      else
        let r := remove_from_queue pid xs
        (r.1, x :: r.2)

/-- `MatchmakingQueue.is_player_in_queue`: `find_one({"player_id": pid})` is
not `None`. -/
def is_player_in_queue (pid : String) (q : List QueueEntry) : Bool :=
  (q.find? (fun e => e.player_id == pid)).isSome

/-- `MatchmakingQueue.get_queue_position`: `-1` when the player is not
queued (the route turns `-1` into a 404 not-found), otherwise one plus the
count of documents whose `joined_at` is strictly earlier. -/
def get_queue_position (pid : String) (q : List QueueEntry) : Int :=
  match q.find? (fun e => e.player_id == pid) with
  | none => -1
  | some e => (q.countP (fun x => decide (x.joined_at < e.joined_at)) : Int) + 1

/-- The filter of both `find_one` queries in `find_match`: another waiting
player whose score lies within `d` of the requester's. -/
def waiting_candidate (pid : String) (score d : Int) (e : QueueEntry) : Bool :=
  e.player_id != pid && e.status == "waiting"
    && decide (score - d ≤ e.score) && decide (e.score ≤ score + d)

/-- `MatchmakingQueue.find_match`: first try the `±MAX_SCORE_DIFFERENCE`
window, then the `±EXPANDED_SCORE_DIFFERENCE` window; return the matched
document's `player_id`. -/
def find_match (pid : String) (score : Int) (q : List QueueEntry) : Option String :=
  match q.find? (waiting_candidate pid score MAX_SCORE_DIFFERENCE) with
  | some e => some e.player_id
  | none =>
      match q.find? (waiting_candidate pid score EXPANDED_SCORE_DIFFERENCE) with
      | some e => some e.player_id
      | none => none

/-- `MatchmakingQueue.get_queue_size`: `count_documents({"status": "waiting"})`. -/
def get_queue_size (q : List QueueEntry) : Nat :=
  q.countP (fun e => e.status == "waiting")

/-- Result shape of `MatchmakingQueue.get_queue_status` (the `timestamp`
field is omitted: the embedding passes time explicitly). -/
structure QueueStats where
  total_players : Nat
  average_score : ℚ
deriving Repr, DecidableEq

/-- `MatchmakingQueue.get_queue_status`: total waiting players and their
average score via the `$avg` aggregation; when the aggregation selects no
document the source falls back to the number `0`. -/
def get_queue_status (q : List QueueEntry) : QueueStats :=
  let waiting := q.filter (fun e => e.status == "waiting")
  { total_players := get_queue_size q
  , average_score :=
      if waiting.isEmpty then 0
      else ((waiting.map (fun e => e.score)).sum : ℚ) / (waiting.length : ℚ) }

/-- `MatchmakingQueue.validate_queue_entry`: reject when the player is
already queued or the score is negative. -/
def validate_queue_entry (pid : String) (score : Int) (q : List QueueEntry) : Bool :=
  if is_player_in_queue pid q then false
  else if score < 0 then false
  else true

/-- `MatchmakingQueue.create_match`: mint a fresh identifier, insert an
active match record, then delete both players' queue entries (player 1
first, as in the source). -/
def create_match (p1 p2 : String) (now : Int) (st : EngineState) : Nat × EngineState :=
  let mid := st.next_id
  let m : MatchRecord :=
    { id := mid, player1_id := p1, player2_id := p2
    , created_at := now, status := "active", cancelled_at := none }
  let q1 := (remove_from_queue p1 st.queue).2
  let q2 := (remove_from_queue p2 q1).2
  (mid, { queue := q2, matches_collection := st.matches_collection ++ [m], next_id := st.next_id + 1 })

/-- `MatchmakingQueue.get_match_details`: `find_one({"_id": mid})`; the
source's empty-dict sentinel becomes `none`. -/
def get_match_details (mid : Nat) (st : EngineState) : Option MatchRecord :=
  st.matches_collection.find? (fun m => m.id == mid)

/-- `MatchmakingQueue.clean_stale_queue_entries`: `delete_many` on documents
whose `joined_at` is strictly before `now - QUEUE_TIMEOUT_MINUTES`; returns
the deleted count and the surviving queue.  The source takes no timeout
parameter: the threshold is the module constant. -/
def clean_stale_queue_entries (now : Int) (q : List QueueEntry) : Nat × List QueueEntry :=
  (q.countP (fun e => decide (e.joined_at < now - QUEUE_TIMEOUT_MINUTES)),
   q.filter (fun e => !(decide (e.joined_at < now - QUEUE_TIMEOUT_MINUTES))))

/-- The sweep as the claim words it: `sweep(timeout_minutes)` with the
timeout an overridable argument defaulting to 5.  Kept distinct from
`clean_stale_queue_entries` so the two can be compared. -/
def sweep_spec (timeout_minutes : Int) (now : Int) (q : List QueueEntry) :
    Nat × List QueueEntry :=
  (q.countP (fun e => decide (e.joined_at < now - timeout_minutes)),
   q.filter (fun e => !(decide (e.joined_at < now - timeout_minutes))))

/-- Outcome of the `join_queue` route: HTTP 400 on validation failure,
`matched` with a match id and opponent, or `queued` with a position. -/
inductive JoinResult
  | invalid
  | matched (match_id : Nat) (opponent_id : String)
  | queued (position : Int)
deriving Repr, DecidableEq

/-- Route `POST /matchmaking/queue` (`join_queue` in `matchmaking.py`):
validate, upsert into the queue, search for an opponent, and on a hit
create the match. -/
def join_queue (pid : String) (score : Int) (now : Int) (st : EngineState) :
    JoinResult × EngineState :=
  if !(validate_queue_entry pid score st.queue) then (.invalid, st)
  else
    let q := add_to_queue pid score now st.queue
    let st1 : EngineState := { st with queue := q }
    match find_match pid score st1.queue with
    | some opp =>
        let r := create_match pid opp now st1
        (.matched r.1 opp, r.2)
    | none => (.queued (get_queue_position pid st1.queue), st1)

/-- Outcome of the `cancel_match` route: HTTP 404, HTTP 403, or success. -/
inductive CancelResult
  | success
  | not_found
  | forbidden
deriving Repr, DecidableEq

/-- Mongo `update_one({"_id": mid}, ...)`: apply `f` to the first document
with identifier `mid`. -/
def update_first (mid : Nat) (f : MatchRecord → MatchRecord) :
    List MatchRecord → List MatchRecord
  | [] => []
  | x :: xs => if x.id == mid then f x :: xs else x :: update_first mid f xs

/-- Route `POST /matchmaking/match/{match_id}/cancel` (`cancel_match` in
`matchmaking.py`): 404 when the match does not exist, 403 when the
requester is neither player, otherwise set status `cancelled` and write a
fresh `cancelled_at`. -/
def cancel_match (mid : Nat) (pid : String) (now : Int) (st : EngineState) :
    CancelResult × EngineState :=
  match get_match_details mid st with
  | none => (.not_found, st)
  | some m =>
      if !(pid == m.player1_id || pid == m.player2_id) then (.forbidden, st)
      else
        let ms := update_first mid
          (fun x => { x with status := "cancelled", cancelled_at := some now })
          st.matches_collection
        (.success, { st with matches_collection := ms })

/-- Local state of one in-flight `join_queue` request: program counter 0 =
about to validate, 1 = about to upsert, 2 = about to search, 3 = about to
create or report, 4 = finished. -/
structure JoinThread where
  pid : String
  score : Int
  pc : Nat
  opponent : Option String
  result : Option JoinResult
deriving Repr, DecidableEq

/-- One store round-trip of `join_queue`, at the granularity at which the
source interleaves: each `await` on the shared collections is a separate
atomic step. -/
def join_step (now : Int) (t : JoinThread) (st : EngineState) :
    JoinThread × EngineState :=
  match t.pc with
  | 0 =>
      if validate_queue_entry t.pid t.score st.queue
      then ({ t with pc := 1 }, st)
      else ({ t with pc := 4, result := some .invalid }, st)
  | 1 => ({ t with pc := 2 }, { st with queue := add_to_queue t.pid t.score now st.queue })
  | 2 => ({ t with pc := 3, opponent := find_match t.pid t.score st.queue }, st)
  | 3 =>
      match t.opponent with
      | some opp =>
          let r := create_match t.pid opp now st
          ({ t with pc := 4, result := some (.matched r.1 opp) }, r.2)
      | none =>
          ({ t with pc := 4, result := some (.queued (get_queue_position t.pid st.queue)) }, st)
  | _ => (t, st)

/-- Run two concurrent `join_queue` requests under a schedule: `true` steps
the first thread, `false` the second. -/
def run_two (now : Int) : List Bool → JoinThread → JoinThread → EngineState →
    JoinThread × JoinThread × EngineState
  | [], a, b, st => (a, b, st)
  | c :: cs, a, b, st =>
      if c then
        let r := join_step now a st
        run_two now cs r.1 b r.2
      else
        let r := join_step now b st
        run_two now cs a r.1 r.2

/-! ### Helper lemmas about the embedded store primitives -/

lemma not_in_queue_iff (pid : String) (q : List QueueEntry) :
    is_player_in_queue pid q = false ↔ ∀ e ∈ q, e.player_id ≠ pid := by
  rw [← Bool.not_eq_true, is_player_in_queue, Option.not_isSome_iff_eq_none,
    List.find?_eq_none]
  simp

lemma countP_add_length_filter_not {α : Type} (p : α → Bool) (l : List α) :
    l.countP p + (l.filter (fun a => !(p a))).length = l.length := by
  induction l with
  | nil => rfl
  | cons x xs ih =>
      by_cases h : p x = true <;>
        simp [List.countP_cons, List.filter_cons, h] <;> omega

/-- C10: with no waiting entry present, the stats aggregation still
succeeds and reports zero total players together with the number `0` as
average score (the fallback branch of `get_queue_status`), rather than an
absent or null value. -/
theorem get_queue_status_no_waiting (q : List QueueEntry)
    (h : ∀ e ∈ q, e.status ≠ "waiting") :
    get_queue_status q = { total_players := 0, average_score := 0 } := by
  have hf : q.filter (fun e => e.status == "waiting") = [] := by
    rw [List.filter_eq_nil_iff]
    intro a ha
    simpa using h a ha
  simp [get_queue_status, get_queue_size, List.countP_eq_length_filter, hf]

/-- Closed instance of the C10 theorem on the empty queue. -/
theorem get_queue_status_no_waiting_witness :
    (∀ e ∈ ([] : List QueueEntry), e.status ≠ "waiting")
    ∧ get_queue_status [] = { total_players := 0, average_score := 0 } :=
  ⟨by decide, get_queue_status_no_waiting [] (by decide)⟩

/-- C9: a queued player's position is one plus the count of entries with a
strictly earlier `joined_at`; a player absent from the queue gets the
not-found sentinel `-1`; a freshly admitted sole member has position 1. -/
theorem get_queue_position_rank (pid : String) (q q2 : List QueueEntry)
    (e : QueueEntry) (score now : Int)
    (he : q.find? (fun x => x.player_id == pid) = some e)
    (h2 : ∀ x ∈ q2, x.player_id ≠ pid) :
    get_queue_position pid q
      = (q.countP (fun x => decide (x.joined_at < e.joined_at)) : Int) + 1
    ∧ get_queue_position pid q2 = -1
    ∧ get_queue_position pid (add_to_queue pid score now []) = 1 := by
  refine ⟨?_, ?_, ?_⟩
  · simp [get_queue_position, he]
  · have hn : q2.find? (fun x => x.player_id == pid) = none := by
      rw [List.find?_eq_none]
      intro x hx
      simpa using h2 x hx
    simp [get_queue_position, hn]
  · simp [get_queue_position, add_to_queue, upsert_by_player, List.find?_cons,
      List.countP_cons]

/-- Closed instance of the C9 theorem: a two-entry queue where the player
joined second, a queue without the player, and a fresh sole admission. -/
theorem get_queue_position_rank_witness :
    (([QueueEntry.mk "b" 5 0 "waiting", QueueEntry.mk "a" 6 2 "waiting"]).find?
        (fun x => x.player_id == "a") = some (QueueEntry.mk "a" 6 2 "waiting"))
    ∧ (∀ x ∈ [QueueEntry.mk "b" 5 0 "waiting"], x.player_id ≠ "a")
    ∧ (get_queue_position "a" [QueueEntry.mk "b" 5 0 "waiting", QueueEntry.mk "a" 6 2 "waiting"]
        = (([QueueEntry.mk "b" 5 0 "waiting", QueueEntry.mk "a" 6 2 "waiting"]).countP
            (fun x => decide (x.joined_at < (QueueEntry.mk "a" 6 2 "waiting").joined_at)) : Int) + 1
      ∧ get_queue_position "a" [QueueEntry.mk "b" 5 0 "waiting"] = -1
      ∧ get_queue_position "a" (add_to_queue "a" 9 4 []) = 1) :=
  ⟨by decide, by decide,
    get_queue_position_rank "a"
      [QueueEntry.mk "b" 5 0 "waiting", QueueEntry.mk "a" 6 2 "waiting"]
      [QueueEntry.mk "b" 5 0 "waiting"]
      (QueueEntry.mk "a" 6 2 "waiting") 9 4 (by decide) (by decide)⟩

/-- C5: validation fails exactly when the score is negative or the player
already holds a queue entry (no other field is consulted), and a join
rejected by validation returns the 400 result and leaves the store
unchanged. -/
theorem validate_queue_entry_spec (pid : String) (score now : Int) (st : EngineState) :
    (validate_queue_entry pid score st.queue = false
      ↔ (score < 0 ∨ is_player_in_queue pid st.queue = true))
    ∧ (validate_queue_entry pid score st.queue = false →
        join_queue pid score now st = (JoinResult.invalid, st)) := by
  constructor
  · unfold validate_queue_entry
    by_cases h1 : is_player_in_queue pid st.queue = true <;>
      by_cases h2 : score < 0 <;> simp [h1, h2]
  · intro hv
    simp [join_queue, hv]

/-- Closed instance of the C5 theorem: a negative-score join on the empty
store is rejected and mutates nothing. -/
theorem validate_queue_entry_spec_witness :
    (validate_queue_entry "a" (-1) (EngineState.mk [] [] 0).queue = false
      ↔ ((-1 : Int) < 0 ∨ is_player_in_queue "a" (EngineState.mk [] [] 0).queue = true))
    ∧ (validate_queue_entry "a" (-1) (EngineState.mk [] [] 0).queue = false →
        join_queue "a" (-1) 3 (EngineState.mk [] [] 0)
          = (JoinResult.invalid, EngineState.mk [] [] 0)) :=
  validate_queue_entry_spec "a" (-1) 3 (EngineState.mk [] [] 0)

/-- C8 counterexample: the source sweep accepts no timeout override — its
threshold is the fixed constant 5.  Under the claimed override of 10
minutes an entry of age 7 minutes must be kept, yet the code removes it. -/
theorem clean_stale_no_override_counterexample :
    (clean_stale_queue_entries 7 [⟨"a", 0, 0, "waiting"⟩]).1 = 1
    ∧ (7 : Int) - 0 ≤ 10
    ∧ clean_stale_queue_entries 7 [⟨"a", 0, 0, "waiting"⟩]
        ≠ sweep_spec 10 7 [⟨"a", 0, 0, "waiting"⟩] := by decide

/-- C8 (amended): with the fixed five-minute timeout, the sweep keeps
exactly the entries whose age is at most the timeout, the removed count and
the survivors partition the queue, and an immediately repeated sweep
removes zero entries. -/
theorem clean_stale_queue_entries_exact (now : Int) (q : List QueueEntry)
    (e : QueueEntry) (he : e ∈ q) :
    (e ∈ (clean_stale_queue_entries now q).2
      ↔ now - e.joined_at ≤ QUEUE_TIMEOUT_MINUTES)
    ∧ (clean_stale_queue_entries now q).1
        + (clean_stale_queue_entries now q).2.length = q.length
    ∧ (clean_stale_queue_entries now ((clean_stale_queue_entries now q).2)).1 = 0 := by
  refine ⟨?_, ?_, ?_⟩
  · simp [clean_stale_queue_entries, List.mem_filter, he, QUEUE_TIMEOUT_MINUTES]
    omega
  · exact countP_add_length_filter_not _ q
  · refine List.countP_eq_zero.mpr ?_
    intro a ha
    simp only [clean_stale_queue_entries, List.mem_filter] at ha
    simpa using ha.2

/-- Closed instance of the amended C8 theorem: a sweep at time 10 keeps the
age-3 entry, removes the age-10 one, and a repeated sweep removes zero. -/
theorem clean_stale_queue_entries_exact_witness :
    (QueueEntry.mk "b" 0 7 "waiting" ∈ [⟨"a", 0, 0, "waiting"⟩, ⟨"b", 0, 7, "waiting"⟩])
    ∧ ((QueueEntry.mk "b" 0 7 "waiting"
          ∈ (clean_stale_queue_entries 10 [⟨"a", 0, 0, "waiting"⟩, ⟨"b", 0, 7, "waiting"⟩]).2
        ↔ (10 : Int) - 7 ≤ QUEUE_TIMEOUT_MINUTES)
      ∧ (clean_stale_queue_entries 10 [⟨"a", 0, 0, "waiting"⟩, ⟨"b", 0, 7, "waiting"⟩]).1
          + (clean_stale_queue_entries 10 [⟨"a", 0, 0, "waiting"⟩, ⟨"b", 0, 7, "waiting"⟩]).2.length
          = ([⟨"a", 0, 0, "waiting"⟩, ⟨"b", 0, 7, "waiting"⟩] : List QueueEntry).length
      ∧ (clean_stale_queue_entries 10
          ((clean_stale_queue_entries 10 [⟨"a", 0, 0, "waiting"⟩, ⟨"b", 0, 7, "waiting"⟩]).2)).1
          = 0) :=
  ⟨by decide,
    clean_stale_queue_entries_exact 10 _ ⟨"b", 0, 7, "waiting"⟩ (by decide)⟩

/-- Updating the first document with a given identifier commutes with
looking that identifier up, provided the update preserves the identifier. -/
lemma find?_update_first (mid : Nat) (f : MatchRecord → MatchRecord)
    (hf : ∀ x, (f x).id = x.id) (l : List MatchRecord) :
    (update_first mid f l).find? (fun x => x.id == mid)
      = (l.find? (fun x => x.id == mid)).map f := by
  induction l with
  | nil => rfl
  | cons x xs ih =>
      by_cases h : (x.id == mid) = true
      · simp [update_first, h, List.find?_cons, hf x]
      · simp [update_first, h, List.find?_cons, ih]

/-- C1: the interleaving in which two concurrent compatible joins each pass
validation, each enter the queue, and each observe the other as an
opponent before either creates a match.  The source performs search, match
insert, and queue removal as separate awaited store calls with no claim
primitive and no retry, so both callers proceed to `create_match`: two
players yield two match records instead of one, and each player appears in
both. -/
theorem join_queue_race_duplicate_matches :
    ((run_two 0 [true, false, true, false, true, false, true, false]
        ⟨"alice", 500, 0, none, none⟩ ⟨"bob", 500, 0, none, none⟩
        ⟨[], [], 0⟩).2.2.matches_collection.length = 2)
    ∧ ((run_two 0 [true, false, true, false, true, false, true, false]
        ⟨"alice", 500, 0, none, none⟩ ⟨"bob", 500, 0, none, none⟩
        ⟨[], [], 0⟩).2.2.matches_collection.countP
          (fun m => m.player1_id == "alice" || m.player2_id == "alice") = 2)
    ∧ ((run_two 0 [true, false, true, false, true, false, true, false]
        ⟨"alice", 500, 0, none, none⟩ ⟨"bob", 500, 0, none, none⟩
        ⟨[], [], 0⟩).2.2.matches_collection.countP
          (fun m => m.player1_id == "bob" || m.player2_id == "bob") = 2) := by
  decide

/-- C7 counterexample: a second cancellation by a participant returns
success but is not a no-op — it overwrites `cancelled_at` with the later
call's current time, so the match record changes. -/
theorem cancel_match_second_call_mutates :
    ((cancel_match 0 "a" 2
        (cancel_match 0 "a" 1 ⟨[], [⟨0, "a", "b", 0, "active", none⟩], 1⟩).2).1
      = CancelResult.success)
    ∧ (cancel_match 0 "a" 2
        (cancel_match 0 "a" 1 ⟨[], [⟨0, "a", "b", 0, "active", none⟩], 1⟩).2).2
      ≠ (cancel_match 0 "a" 1 ⟨[], [⟨0, "a", "b", 0, "active", none⟩], 1⟩).2 := by
  decide

/-- C7 (amended): cancelling twice as a participant succeeds both times and
keeps the status `cancelled`, but the second call is not a strict no-op: it
overwrites `cancelled_at` with its own current time. -/
theorem cancel_match_twice (mid : Nat) (pid : String) (now1 now2 : Int)
    (st : EngineState) (m : MatchRecord)
    (hm : get_match_details mid st = some m)
    (hp : pid = m.player1_id ∨ pid = m.player2_id) :
    (cancel_match mid pid now1 st).1 = CancelResult.success
    ∧ (cancel_match mid pid now2 (cancel_match mid pid now1 st).2).1
        = CancelResult.success
    ∧ get_match_details mid (cancel_match mid pid now2 (cancel_match mid pid now1 st).2).2
        = some { m with status := "cancelled", cancelled_at := some now2 } := by
  have hcond : (!(pid == m.player1_id || pid == m.player2_id)) = false := by
    rcases hp with h | h <;> simp [h]
  have h1 : cancel_match mid pid now1 st
      = (CancelResult.success,
         { st with matches_collection := update_first mid (fun x => { x with status := "cancelled", cancelled_at := some now1 }) st.matches_collection }) := by
    rw [cancel_match, hm]
    simp [hcond]
  have hdet1 : get_match_details mid (cancel_match mid pid now1 st).2
      = some { m with status := "cancelled", cancelled_at := some now1 } := by
    rw [h1]
    show (update_first mid _ st.matches_collection).find? (fun x => x.id == mid) = _
    rw [find?_update_first mid (fun x => { x with status := "cancelled", cancelled_at := some now1 }) (fun x => rfl) st.matches_collection]
    rw [show st.matches_collection.find? (fun x => x.id == mid) = some m from hm]
    rfl
  have hcond2 : (!(pid == ({ m with status := "cancelled", cancelled_at := some now1 } : MatchRecord).player1_id
      || pid == ({ m with status := "cancelled", cancelled_at := some now1 } : MatchRecord).player2_id)) = false := by
    simpa using hcond
  have h2 : cancel_match mid pid now2 (cancel_match mid pid now1 st).2
      = (CancelResult.success,
         { (cancel_match mid pid now1 st).2 with matches_collection := update_first mid (fun x => { x with status := "cancelled", cancelled_at := some now2 }) (cancel_match mid pid now1 st).2.matches_collection }) := by
    rw [cancel_match, hdet1]
    simp [hcond2]
  refine ⟨by rw [h1], by rw [h2], ?_⟩
  rw [h2]
  show (update_first mid _ (cancel_match mid pid now1 st).2.matches_collection).find?
      (fun x => x.id == mid) = _
  rw [find?_update_first mid (fun x => { x with status := "cancelled", cancelled_at := some now2 }) (fun x => rfl) ((cancel_match mid pid now1 st).2.matches_collection)]
  rw [show (cancel_match mid pid now1 st).2.matches_collection.find? (fun x => x.id == mid)
      = some { m with status := "cancelled", cancelled_at := some now1 } from hdet1]
  rfl

/-- Closed instance of the amended C7 theorem on a concrete active match. -/
theorem cancel_match_twice_witness :
    (get_match_details 0 ⟨[], [⟨0, "a", "b", 0, "active", none⟩], 1⟩
        = some (MatchRecord.mk 0 "a" "b" 0 "active" none))
    ∧ ("a" = (MatchRecord.mk 0 "a" "b" 0 "active" none).player1_id
        ∨ "a" = (MatchRecord.mk 0 "a" "b" 0 "active" none).player2_id)
    ∧ ((cancel_match 0 "a" 1 ⟨[], [⟨0, "a", "b", 0, "active", none⟩], 1⟩).1
        = CancelResult.success
      ∧ (cancel_match 0 "a" 2
          (cancel_match 0 "a" 1 ⟨[], [⟨0, "a", "b", 0, "active", none⟩], 1⟩).2).1
        = CancelResult.success
      ∧ get_match_details 0
          (cancel_match 0 "a" 2
            (cancel_match 0 "a" 1 ⟨[], [⟨0, "a", "b", 0, "active", none⟩], 1⟩).2).2
        = some { MatchRecord.mk 0 "a" "b" 0 "active" none with
                  status := "cancelled", cancelled_at := some 2 }) :=
  ⟨by decide, by decide,
    cancel_match_twice 0 "a" 1 2 ⟨[], [⟨0, "a", "b", 0, "active", none⟩], 1⟩
      (MatchRecord.mk 0 "a" "b" 0 "active" none) (by decide) (by decide)⟩

/-- In a queue whose entries carry pairwise distinct player identifiers,
any given identifier occurs at most once. -/
lemma countP_player_le_one_of_pairwise (q : List QueueEntry)
    (h : q.Pairwise (fun a b => a.player_id ≠ b.player_id)) (p : String) :
    q.countP (fun x => x.player_id == p) ≤ 1 := by
  induction q with
  | nil => simp
  | cons x xs ih =>
      rcases List.pairwise_cons.mp h with ⟨hx, hxs⟩
      rw [List.countP_cons]
      by_cases hxp : (x.player_id == p) = true
      · have hz : xs.countP (fun e => e.player_id == p) = 0 := by
          rw [List.countP_eq_zero]
          intro a ha
          have hne := hx a ha
          rw [beq_iff_eq] at hxp
          simp only [beq_iff_eq]
          intro hap
          exact hne (hxp.trans hap.symm)
        rw [hz, if_pos hxp]
      · rw [if_neg hxp]
        have := ih hxs
        omega

/-- An upsert keyed by `pid` leaves the occurrence count of every other
player identifier unchanged. -/
lemma upsert_countP_other (pid p : String) (hne : p ≠ pid) (e : QueueEntry)
    (hpe : e.player_id = pid) (q : List QueueEntry) :
    (upsert_by_player pid e q).countP (fun x => x.player_id == p)
      = q.countP (fun x => x.player_id == p) := by
  induction q with
  | nil => simp [upsert_by_player, List.countP_cons, hpe, beq_iff_eq, Ne.symm hne]
  | cons x xs ih =>
      by_cases h : (x.player_id == pid) = true
      · rw [beq_iff_eq] at h
        simp [upsert_by_player, h, List.countP_cons, hpe, beq_iff_eq, Ne.symm hne]
      · simp [upsert_by_player, h, List.countP_cons, ih]

/-- An upsert keyed by `pid` makes the occurrence count of `pid` the
maximum of its previous count and one: a present key is replaced in place,
an absent key is inserted once. -/
lemma upsert_countP_self (pid : String) (e : QueueEntry) (hpe : e.player_id = pid)
    (q : List QueueEntry) :
    (upsert_by_player pid e q).countP (fun x => x.player_id == pid)
      = max (q.countP (fun x => x.player_id == pid)) 1 := by
  induction q with
  | nil => simp [upsert_by_player, List.countP_cons, hpe]
  | cons x xs ih =>
      by_cases h : (x.player_id == pid) = true
      · simp only [upsert_by_player, h, if_true, List.countP_cons, hpe, beq_self_eq_true]
        omega
      · simp only [upsert_by_player, h, if_false, Bool.false_eq_true, List.countP_cons, ih]
        omega

/-- After an upsert keyed by `pid`, looking up `pid` returns exactly the
upserted record. -/
lemma upsert_find_self (pid : String) (e : QueueEntry) (hpe : e.player_id = pid)
    (q : List QueueEntry) :
    (upsert_by_player pid e q).find? (fun x => x.player_id == pid) = some e := by
  induction q with
  | nil => simp [upsert_by_player, List.find?_cons, hpe]
  | cons x xs ih =>
      by_cases h : (x.player_id == pid) = true
      · simp [upsert_by_player, h, List.find?_cons, hpe]
      · simp [upsert_by_player, h, List.find?_cons, ih]

/-- An upsert on a key already present does not change the queue length. -/
lemma upsert_length_of_mem (pid : String) (e : QueueEntry) (q : List QueueEntry)
    (h : is_player_in_queue pid q = true) :
    (upsert_by_player pid e q).length = q.length := by
  induction q with
  | nil => simp [is_player_in_queue] at h
  | cons x xs ih =>
      by_cases hx : (x.player_id == pid) = true
      · simp [upsert_by_player, hx]
      · have h2 : is_player_in_queue pid xs = true := by
          simp only [is_player_in_queue, List.find?_cons, hx] at h ⊢
          simpa using h
        simp [upsert_by_player, hx, ih h2]

/-- C2: starting from a queue with pairwise distinct player identifiers,
admission keeps every identifier's occurrence count at most one; the
admitted player's entry is the fresh waiting record with `joined_at = now`;
and re-admission of an already queued player does not grow the queue. -/
theorem add_to_queue_at_most_one (q : List QueueEntry) (pid p : String)
    (score now : Int)
    (h : q.Pairwise (fun a b => a.player_id ≠ b.player_id)) :
    (add_to_queue pid score now q).countP (fun e => e.player_id == p) ≤ 1
    ∧ (add_to_queue pid score now q).find? (fun e => e.player_id == pid)
        = some (QueueEntry.mk pid score now "waiting")
    ∧ (is_player_in_queue pid q = true →
        (add_to_queue pid score now q).length = q.length) := by
  refine ⟨?_, upsert_find_self pid _ rfl q, fun hin => upsert_length_of_mem pid _ q hin⟩
  by_cases hp : p = pid
  · subst hp
    rw [add_to_queue, upsert_countP_self p _ rfl q]
    have := countP_player_le_one_of_pairwise q h p
    omega
  · rw [add_to_queue, upsert_countP_other pid p hp _ rfl q]
    exact countP_player_le_one_of_pairwise q h p

/-- Closed instance of the C2 theorem: re-admitting the sole queued player
refreshes the timestamp and keeps a single entry. -/
theorem add_to_queue_at_most_one_witness :
    ([QueueEntry.mk "a" 1 0 "waiting"].Pairwise (fun a b => a.player_id ≠ b.player_id))
    ∧ ((add_to_queue "a" 2 5 [QueueEntry.mk "a" 1 0 "waiting"]).countP
          (fun e => e.player_id == "a") ≤ 1
      ∧ (add_to_queue "a" 2 5 [QueueEntry.mk "a" 1 0 "waiting"]).find?
          (fun e => e.player_id == "a") = some (QueueEntry.mk "a" 2 5 "waiting")
      ∧ (is_player_in_queue "a" [QueueEntry.mk "a" 1 0 "waiting"] = true →
          (add_to_queue "a" 2 5 [QueueEntry.mk "a" 1 0 "waiting"]).length
            = [QueueEntry.mk "a" 1 0 "waiting"].length)) :=
  ⟨by decide,
    add_to_queue_at_most_one [QueueEntry.mk "a" 1 0 "waiting"] "a" "a" 2 5 (by decide)⟩

/-- An entry passing the opponent filter is never the requester. -/
lemma waiting_candidate_ne (pid : String) (score d : Int) (e : QueueEntry)
    (h : waiting_candidate pid score d e = true) : e.player_id ≠ pid := by
  simp only [waiting_candidate, Bool.and_eq_true, bne_iff_ne] at h
  exact h.1.1.1

/-- The opponent returned by `find_match` is never the requester: both
tier queries carry the `player_id` exclusion. -/
lemma find_match_ne (pid : String) (score : Int) (q : List QueueEntry)
    (opp : String) (h : find_match pid score q = some opp) : opp ≠ pid := by
  rw [find_match] at h
  cases h1 : q.find? (waiting_candidate pid score MAX_SCORE_DIFFERENCE) with
  | some e =>
      rw [h1] at h
      simp only [Option.some.injEq] at h
      exact h ▸ waiting_candidate_ne pid score _ e (List.find?_some h1)
  | none =>
      rw [h1] at h
      cases h2 : q.find? (waiting_candidate pid score EXPANDED_SCORE_DIFFERENCE) with
      | some e =>
          rw [h2] at h
          simp only [Option.some.injEq] at h
          exact h ▸ waiting_candidate_ne pid score _ e (List.find?_some h2)
      | none =>
          rw [h2] at h
          cases h

/-- Deleting one entry yields a sublist of the original queue. -/
lemma remove_from_queue_sublist (pid : String) (q : List QueueEntry) :
    ((remove_from_queue pid q).2).Sublist q := by
  induction q with
  | nil => simp [remove_from_queue]
  | cons x xs ih =>
      by_cases h : (x.player_id == pid) = true
      · simp only [remove_from_queue, h, if_true]
        exact List.sublist_cons_self x xs
      · simp only [remove_from_queue, h, if_false, Bool.false_eq_true]
        exact ih.cons₂ x

/-- A player absent from the queue stays absent after any deletion. -/
lemma not_in_remove_other (pid pid2 : String) (q : List QueueEntry)
    (h : is_player_in_queue pid q = false) :
    is_player_in_queue pid ((remove_from_queue pid2 q).2) = false := by
  rw [not_in_queue_iff] at h ⊢
  intro e he
  exact h e ((remove_from_queue_sublist pid2 q).subset he)

/-- Deleting a player from a duplicate-free queue removes every trace of
that player. -/
lemma not_in_remove_self (pid : String) (q : List QueueEntry)
    (h : q.Pairwise (fun a b => a.player_id ≠ b.player_id)) :
    is_player_in_queue pid ((remove_from_queue pid q).2) = false := by
  induction q with
  | nil => simp [remove_from_queue, is_player_in_queue]
  | cons x xs ih =>
      rcases List.pairwise_cons.mp h with ⟨hx, hxs⟩
      by_cases hb : (x.player_id == pid) = true
      · have heq : x.player_id = pid := beq_iff_eq.mp hb
        simp only [remove_from_queue, hb, if_true]
        rw [not_in_queue_iff]
        intro e he hep
        exact hx e he (by rw [heq, hep])
      · simp only [remove_from_queue, hb, if_false, Bool.false_eq_true]
        rw [not_in_queue_iff]
        intro e he
        rcases List.mem_cons.mp he with rfl | he2
        · simpa using hb
        · exact (not_in_queue_iff pid _).mp (ih hxs) e he2

/-- C3: when the opponent was produced by the search (as in the join flow),
the two players differ; `create_match` appends the active match record
under the freshly generated, previously unused identifier and removes both
players' queue entries, so at the instant the match exists neither player
holds a queue entry. -/
theorem create_match_spec (pid opp : String) (score now : Int) (st : EngineState)
    (hfind : find_match pid score st.queue = some opp)
    (huniq : st.queue.Pairwise (fun a b => a.player_id ≠ b.player_id))
    (hfresh : ∀ m ∈ st.matches_collection, m.id < st.next_id) :
    opp ≠ pid
    ∧ (∀ m ∈ st.matches_collection, m.id ≠ (create_match pid opp now st).1)
    ∧ (create_match pid opp now st).2.matches_collection
        = st.matches_collection
            ++ [MatchRecord.mk (create_match pid opp now st).1 pid opp now "active" none]
    ∧ is_player_in_queue pid (create_match pid opp now st).2.queue = false
    ∧ is_player_in_queue opp (create_match pid opp now st).2.queue = false := by
  refine ⟨find_match_ne pid score st.queue opp hfind, ?_, rfl, ?_, ?_⟩
  · intro m hm
    have hlt := hfresh m hm
    have hid : (create_match pid opp now st).1 = st.next_id := rfl
    rw [hid]
    exact Nat.ne_of_lt hlt
  · show is_player_in_queue pid
      ((remove_from_queue opp ((remove_from_queue pid st.queue).2)).2) = false
    exact not_in_remove_other pid opp _ (not_in_remove_self pid st.queue huniq)
  · show is_player_in_queue opp
      ((remove_from_queue opp ((remove_from_queue pid st.queue).2)).2) = false
    exact not_in_remove_self opp _
      (List.Pairwise.sublist (remove_from_queue_sublist pid st.queue) huniq)

/-- Closed instance of the C3 theorem: alice (500) matched against the
waiting bob (550). -/
theorem create_match_spec_witness :
    (find_match "alice" 500 (EngineState.mk [QueueEntry.mk "bob" 550 0 "waiting"] [] 0).queue
        = some "bob")
    ∧ ((EngineState.mk [QueueEntry.mk "bob" 550 0 "waiting"] [] 0).queue.Pairwise
        (fun a b => a.player_id ≠ b.player_id))
    ∧ (∀ m ∈ (EngineState.mk [QueueEntry.mk "bob" 550 0 "waiting"] [] 0).matches_collection,
        m.id < (EngineState.mk [QueueEntry.mk "bob" 550 0 "waiting"] [] 0).next_id)
    ∧ ("bob" ≠ "alice"
      ∧ (∀ m ∈ (EngineState.mk [QueueEntry.mk "bob" 550 0 "waiting"] [] 0).matches_collection,
          m.id ≠ (create_match "alice" "bob" 7 (EngineState.mk [QueueEntry.mk "bob" 550 0 "waiting"] [] 0)).1)
      ∧ (create_match "alice" "bob" 7 (EngineState.mk [QueueEntry.mk "bob" 550 0 "waiting"] [] 0)).2.matches_collection
          = (EngineState.mk [QueueEntry.mk "bob" 550 0 "waiting"] [] 0).matches_collection
            ++ [MatchRecord.mk (create_match "alice" "bob" 7 (EngineState.mk [QueueEntry.mk "bob" 550 0 "waiting"] [] 0)).1 "alice" "bob" 7 "active" none]
      ∧ is_player_in_queue "alice"
          (create_match "alice" "bob" 7 (EngineState.mk [QueueEntry.mk "bob" 550 0 "waiting"] [] 0)).2.queue = false
      ∧ is_player_in_queue "bob"
          (create_match "alice" "bob" 7 (EngineState.mk [QueueEntry.mk "bob" 550 0 "waiting"] [] 0)).2.queue = false) :=
  ⟨by decide, by decide, by decide,
    create_match_spec "alice" "bob" 500 7
      (EngineState.mk [QueueEntry.mk "bob" 550 0 "waiting"] [] 0)
      (by decide) (by decide) (by decide)⟩

/-- C4: the chosen opponent is never the requester; whenever an entry
inside the ±100 window exists among the other waiting entries, the chosen
opponent is such an entry; and when the ±100 window is empty the chosen
opponent comes from the ±200 window. -/
theorem find_match_tier_preference (pid opp : String) (score : Int)
    (q : List QueueEntry) (hfind : find_match pid score q = some opp) :
    opp ≠ pid
    ∧ ((∃ e ∈ q, waiting_candidate pid score MAX_SCORE_DIFFERENCE e = true) →
        ∃ e ∈ q, waiting_candidate pid score MAX_SCORE_DIFFERENCE e = true
          ∧ e.player_id = opp)
    ∧ ((∀ e ∈ q, waiting_candidate pid score MAX_SCORE_DIFFERENCE e = false) →
        ∃ e ∈ q, waiting_candidate pid score EXPANDED_SCORE_DIFFERENCE e = true
          ∧ e.player_id = opp) := by
  refine ⟨find_match_ne pid score q opp hfind, ?_, ?_⟩
  · rintro ⟨e1, he1, hc1⟩
    cases h1 : q.find? (waiting_candidate pid score MAX_SCORE_DIFFERENCE) with
    | none =>
        have := List.find?_eq_none.mp h1 e1 he1
        exact absurd hc1 this
    | some e =>
        have heq : find_match pid score q = some e.player_id := by
          rw [find_match, h1]
        rw [heq] at hfind
        exact ⟨e, List.mem_of_find?_eq_some h1, List.find?_some h1,
          Option.some.inj hfind⟩
  · intro hall
    have h1 : q.find? (waiting_candidate pid score MAX_SCORE_DIFFERENCE) = none := by
      rw [List.find?_eq_none]
      intro x hx
      simp [hall x hx]
    rw [find_match, h1] at hfind
    cases h2 : q.find? (waiting_candidate pid score EXPANDED_SCORE_DIFFERENCE) with
    | none =>
        rw [h2] at hfind
        cases hfind
    | some e =>
        rw [h2] at hfind
        exact ⟨e, List.mem_of_find?_eq_some h2, List.find?_some h2,
          Option.some.inj hfind⟩

/-- Closed instance of the C4 theorem: a tier-2-only entry (zed, diff 180)
sits ahead of a tier-1 entry (bob, diff 50) in document order, yet the
tier-1 entry is chosen. -/
theorem find_match_tier_preference_witness :
    (find_match "alice" 500
        [QueueEntry.mk "zed" 680 0 "waiting", QueueEntry.mk "bob" 550 1 "waiting"]
      = some "bob")
    ∧ ("bob" ≠ "alice"
      ∧ ((∃ e ∈ [QueueEntry.mk "zed" 680 0 "waiting", QueueEntry.mk "bob" 550 1 "waiting"],
            waiting_candidate "alice" 500 MAX_SCORE_DIFFERENCE e = true) →
          ∃ e ∈ [QueueEntry.mk "zed" 680 0 "waiting", QueueEntry.mk "bob" 550 1 "waiting"],
            waiting_candidate "alice" 500 MAX_SCORE_DIFFERENCE e = true
              ∧ e.player_id = "bob")
      ∧ ((∀ e ∈ [QueueEntry.mk "zed" 680 0 "waiting", QueueEntry.mk "bob" 550 1 "waiting"],
            waiting_candidate "alice" 500 MAX_SCORE_DIFFERENCE e = false) →
          ∃ e ∈ [QueueEntry.mk "zed" 680 0 "waiting", QueueEntry.mk "bob" 550 1 "waiting"],
            waiting_candidate "alice" 500 EXPANDED_SCORE_DIFFERENCE e = true
              ∧ e.player_id = "bob")) :=
  ⟨by decide,
    find_match_tier_preference "alice" "bob" 500
      [QueueEntry.mk "zed" 680 0 "waiting", QueueEntry.mk "bob" 550 1 "waiting"]
      (by decide)⟩

/-- C6: cancellation of an unknown match is a not-found failure leaving the
state intact; cancellation by a non-participant is a forbidden failure
leaving the state (hence the match's `active` status) intact; cancellation
by a participant succeeds, touches no queue entry, and the match record now
carries status `cancelled` with `cancelled_at` recorded. -/
theorem cancel_match_results (mid mid2 : Nat) (pid : String) (now : Int)
    (st st2 : EngineState) (m : MatchRecord)
    (hm : get_match_details mid st = some m)
    (hnone : get_match_details mid2 st2 = none) :
    cancel_match mid2 pid now st2 = (CancelResult.not_found, st2)
    ∧ (pid ≠ m.player1_id → pid ≠ m.player2_id →
        cancel_match mid pid now st = (CancelResult.forbidden, st))
    ∧ ((pid = m.player1_id ∨ pid = m.player2_id) →
        (cancel_match mid pid now st).1 = CancelResult.success
        ∧ (cancel_match mid pid now st).2.queue = st.queue
        ∧ get_match_details mid (cancel_match mid pid now st).2
            = some { m with status := "cancelled", cancelled_at := some now }) := by
  refine ⟨by rw [cancel_match, hnone], ?_, ?_⟩
  · intro h1 h2
    rw [cancel_match, hm]
    simp [h1, h2]
  · intro hp
    have hcond : (!(pid == m.player1_id || pid == m.player2_id)) = false := by
      rcases hp with h | h <;> simp [h]
    have h1 : cancel_match mid pid now st
        = (CancelResult.success,
           { st with matches_collection := update_first mid (fun x => { x with status := "cancelled", cancelled_at := some now }) st.matches_collection }) := by
      rw [cancel_match, hm]
      simp [hcond]
    refine ⟨by rw [h1], by rw [h1], ?_⟩
    rw [h1]
    show (update_first mid _ st.matches_collection).find? (fun x => x.id == mid) = _
    rw [find?_update_first mid (fun x => { x with status := "cancelled", cancelled_at := some now }) (fun x => rfl) st.matches_collection]
    rw [show st.matches_collection.find? (fun x => x.id == mid) = some m from hm]
    rfl

/-- Closed instance of the C6 theorem: participant cancellation of match 0
succeeds and records the cancellation; match 5 does not exist in the other
state and fails not-found. -/
theorem cancel_match_results_witness :
    (get_match_details 0 ⟨[], [⟨0, "a", "b", 0, "active", none⟩], 1⟩
        = some (MatchRecord.mk 0 "a" "b" 0 "active" none))
    ∧ (get_match_details 5 (EngineState.mk [] [] 0) = none)
    ∧ (cancel_match 5 "a" 3 (EngineState.mk [] [] 0)
        = (CancelResult.not_found, EngineState.mk [] [] 0)
      ∧ ("a" ≠ (MatchRecord.mk 0 "a" "b" 0 "active" none).player1_id →
          "a" ≠ (MatchRecord.mk 0 "a" "b" 0 "active" none).player2_id →
          cancel_match 0 "a" 3 ⟨[], [⟨0, "a", "b", 0, "active", none⟩], 1⟩
            = (CancelResult.forbidden, ⟨[], [⟨0, "a", "b", 0, "active", none⟩], 1⟩))
      ∧ (("a" = (MatchRecord.mk 0 "a" "b" 0 "active" none).player1_id
            ∨ "a" = (MatchRecord.mk 0 "a" "b" 0 "active" none).player2_id) →
          (cancel_match 0 "a" 3 ⟨[], [⟨0, "a", "b", 0, "active", none⟩], 1⟩).1
            = CancelResult.success
          ∧ (cancel_match 0 "a" 3 ⟨[], [⟨0, "a", "b", 0, "active", none⟩], 1⟩).2.queue
            = (EngineState.mk [] [⟨0, "a", "b", 0, "active", none⟩] 1).queue
          ∧ get_match_details 0
              (cancel_match 0 "a" 3 ⟨[], [⟨0, "a", "b", 0, "active", none⟩], 1⟩).2
            = some { MatchRecord.mk 0 "a" "b" 0 "active" none with
                      status := "cancelled", cancelled_at := some 3 })) :=
  ⟨by decide, by decide,
    cancel_match_results 0 5 "a" 3
      ⟨[], [⟨0, "a", "b", 0, "active", none⟩], 1⟩ (EngineState.mk [] [] 0)
      (MatchRecord.mk 0 "a" "b" 0 "active" none) (by decide) (by decide)⟩
